import Mathlib

/-
Verification development for the Vigil workspace panel.

The embedded code comes from two files of the repository:
  - Vigil/services/lm_studio.py : the LM Studio gateway client
    (endpoint resolver, model refresh, blocking chat, streaming chat);
  - Vigil/app.py : the file watcher (FileWatcher.check_for_changes) and the
    shadow-review scheduler (ModelPanel.run_shadow_review).

Modelling conventions:
  - Python strings are Lean String; all character work is done with
    structural functions on List Char so that concrete inputs evaluate in
    the kernel.
  - JSON values are the inductive Json below; Python json.loads is modelled
    by jsonDecode, a recursive-descent reader of the JSON fragment actually
    exchanged with the server (objects, arrays, strings with the common
    escapes, integer numbers, true/false/null).  Monotonic clock readings
    and file mtimes are Int.
  - The HTTP layer is an environment: a function from request URL (and an
    authorization flag) to an outcome.  Outcomes cover every behaviour the
    client distinguishes: connection errors, other raised exceptions
    (timeouts included), and responses carrying a status code, a reason
    phrase and a body that is either well-formed JSON or malformed.
  - Python exceptions are explicit (PyExc / Except); the public operations
    catch them all, so their Lean types have no error component.
-/

/- ### Character and string primitives (structural, kernel-evaluable) -/

def hasPrefixCh : List Char → List Char → Bool
  | [], _ => true
  | _ :: _, [] => false
  | a :: as, b :: bs => decide (a = b) && hasPrefixCh as bs

def hasSubstrCh (needle : List Char) : List Char → Bool
  | [] => needle.isEmpty
  | c :: rest => hasPrefixCh needle (c :: rest) || hasSubstrCh needle rest

/- Models Python str.startswith. -/
def pyStartsWith (s pre : String) : Bool := hasPrefixCh pre.data s.data

/- Models Python str.endswith. -/
def pyEndsWith (s suf : String) : Bool := hasPrefixCh suf.data.reverse s.data.reverse

def strDrop (s : String) (n : Nat) : String := ⟨s.data.drop n⟩

def strDropRight (s : String) (n : Nat) : String := ⟨(s.data.reverse.drop n).reverse⟩

def dropTrailing (p : Char → Bool) (s : List Char) : List Char := (s.reverse.dropWhile p).reverse

/- Models Python str.rstrip("/"). -/
def pyRstripSlash (s : String) : String := ⟨dropTrailing (fun c => decide (c = '/')) s.data⟩

/- Models Python str.strip("[]"). -/
def pyStripBrackets (s : String) : String :=
  let br : Char → Bool := fun c => decide (c = '[' ∨ c = ']')
  ⟨dropTrailing br (s.data.dropWhile br)⟩

def isPyWs (c : Char) : Bool :=
  decide (c = ' ' ∨ c = '\t' ∨ c = '\n' ∨ c = '\r' ∨ c = '\x0b' ∨ c = '\x0c')

/- Models Python str.strip() with no argument (ASCII whitespace). -/
def pyStrip (s : String) : String := ⟨dropTrailing isPyWs (s.data.dropWhile isPyWs)⟩

def upperCh (c : Char) : Char :=
  if 'a' ≤ c ∧ c ≤ 'z' then Char.ofNat (c.toNat - 32) else c

def lowerCh (c : Char) : Char :=
  if 'A' ≤ c ∧ c ≤ 'Z' then Char.ofNat (c.toNat + 32) else c

/- Models Python str.upper() on the ASCII range (the only range the code feeds it). -/
def pyUpper (s : String) : String := ⟨s.data.map upperCh⟩

/- Models Python str.lower() on the ASCII range. -/
def pyLower (s : String) : String := ⟨s.data.map lowerCh⟩

def strContainsColon (s : String) : Bool := s.data.any (fun c => decide (c = ':'))

/- Strips sep if it heads the list, returning the remainder. -/
def dropPrefixCh : List Char → List Char → Option (List Char)
  | [], s => some s
  | _ :: _, [] => none
  | a :: as, b :: bs => if a = b then dropPrefixCh as bs else none

/- Splits at the first occurrence of sep; none when sep never occurs. -/
def splitFirstCh (sep : List Char) : List Char → Option (List Char × List Char)
  | [] =>
    match dropPrefixCh sep [] with
    | some r => some ([], r)
    | none => none
  | c :: cs =>
    match dropPrefixCh sep (c :: cs) with
    | some r => some ([], r)
    | none =>
      match splitFirstCh sep cs with
      | some (a, b) => some (c :: a, b)
      | none => none

/- First-occurrence deduplication, as dict.fromkeys does. -/
def dedupAux : List String → List String → List String
  | [], _ => []
  | x :: xs, seen => if x ∈ seen then dedupAux xs seen else x :: dedupAux xs (x :: seen)

def dedupKeepFirst (l : List String) : List String := dedupAux l []

/- ### JSON values and Python value semantics -/

inductive Json where
  | null : Json
  | bool : Bool → Json
  | num : Int → Json
  /- A float as json.loads produces for a literal with a fraction or an
  exponent, or for NaN / Infinity / -Infinity; the literal text is kept,
  since no code path reads more of a float than its truthiness. -/
  | fnum : String → Json
  | str : String → Json
  | arr : List Json → Json
  | obj : List (String × Json) → Json

/- Truthiness of a float literal: NaN and the infinities are truthy; a
numeric literal denotes 0.0 exactly when its mantissa digits (the digits
before any exponent marker) are all zero.  Underflow and overflow of
extreme exponents are not modelled; the stream-decoder conformance
condition keeps truthy non-string contents out of every theorem's scope. -/
def floatLitTruthy (s : String) : Bool :=
  if s = "NaN" ∨ s = "Infinity" ∨ s = "-Infinity" then true
  else (s.data.takeWhile (fun c => decide (c ≠ 'e' ∧ c ≠ 'E'))).any
    (fun c => decide ('1' ≤ c ∧ c ≤ '9'))

/- Python truthiness of a decoded JSON value. -/
def jsonTruthy : Json → Bool
  | .null => false
  | .bool b => b
  | .num n => decide (n ≠ 0)
  | .fnum s => floatLitTruthy s
  | .str s => decide (s ≠ "")
  | .arr l => !l.isEmpty
  | .obj l => !l.isEmpty

/- Python dict lookup on a decoded object: duplicate keys collapse with the
last occurrence winning, as in json.loads. -/
def objGet : List (String × Json) → String → Option Json
  | [], _ => none
  | (k, v) :: rest, key =>
    match objGet rest key with
    | some r => some r
    | none => if k = key then some v else none

/- Python dict.get with a default. -/
def dictGetD (fields : List (String × Json)) (k : String) (d : Json) : Json :=
  (objGet fields k).getD d

/- Python `a or b` on JSON values (first truthy operand). -/
def pyOr (a b : Json) : Json := if jsonTruthy a then a else b

/- ### jsonDecode: model of json.loads on the wire fragment -/

def isJsonWs (c : Char) : Bool := decide (c = ' ' ∨ c = '\t' ∨ c = '\n' ∨ c = '\r')

def skipWsCh : List Char → List Char
  | [] => []
  | c :: cs => if isJsonWs c then skipWsCh cs else c :: cs

def hexDigitVal (c : Char) : Option Nat :=
  if '0' ≤ c ∧ c ≤ '9' then some (c.toNat - 48)
  else if 'a' ≤ c ∧ c ≤ 'f' then some (c.toNat - 87)
  else if 'A' ≤ c ∧ c ≤ 'F' then some (c.toNat - 55)
  else none

def hex4 : List Char → Option (Nat × List Char)
  | a :: b :: c :: d :: rest =>
    match hexDigitVal a, hexDigitVal b, hexDigitVal c, hexDigitVal d with
    | some x, some y, some z, some w => some (((x * 16 + y) * 16 + z) * 16 + w, rest)
    | _, _, _, _ => none
  | _ => none

/- The escapes json.loads accepts in strict mode; any other \escape is a
decode error. -/
def simpleEscape (e : Char) : Option Char :=
  if e = '"' then some '"'
  else if e = '\\' then some '\\'
  else if e = '/' then some '/'
  else if e = 'b' then some (Char.ofNat 8)
  else if e = 'f' then some (Char.ofNat 12)
  else if e = 'n' then some '\n'
  else if e = 'r' then some '\r'
  else if e = 't' then some '\t'
  else none

def consStr (c : Char) (r : Option (List Char × List Char)) :
    Option (List Char × List Char) :=
  match r with
  | some (out, rest) => some (c :: out, rest)
  | none => none

/- Reads a string body after the opening quote as json.loads does in strict
mode: raw control characters and unknown escapes are decode errors, \uXXXX
escapes are decoded, and a high/low surrogate escape pair is combined into
one character.  A lone surrogate escape (which Python keeps as a lone
surrogate code unit, a value Lean's Char cannot carry) is outside the
modelled fragment. -/
def parseStrBody : Nat → List Char → Option (List Char × List Char)
  | 0, _ => none
  | _ + 1, [] => none
  | fuel + 1, c :: cs =>
    if c = '"' then some ([], cs)
    else if c.toNat < 32 then none
    else if c = '\\' then
      match cs with
      | [] => none
      | 'u' :: cs2 =>
        match hex4 cs2 with
        | none => none
        | some (n, cs3) =>
          if 0xD800 ≤ n ∧ n ≤ 0xDBFF then
            match cs3 with
            | '\\' :: 'u' :: cs4 =>
              match hex4 cs4 with
              | some (m, cs5) =>
                if 0xDC00 ≤ m ∧ m ≤ 0xDFFF then
                  consStr (Char.ofNat (0x10000 + (n - 0xD800) * 0x400 + (m - 0xDC00)))
                    (parseStrBody fuel cs5)
                else consStr (Char.ofNat n) (parseStrBody fuel cs3)
              | none => consStr (Char.ofNat n) (parseStrBody fuel cs3)
            | _ => consStr (Char.ofNat n) (parseStrBody fuel cs3)
          else consStr (Char.ofNat n) (parseStrBody fuel cs3)
      | e :: cs2 =>
        match simpleEscape e with
        | none => none
        | some ec => consStr ec (parseStrBody fuel cs2)
    else consStr c (parseStrBody fuel cs)

/- Every parseStrBody step consumes at least one character, so the input
length bounds the fuel it needs. -/
def parseStr (cs : List Char) : Option (List Char × List Char) :=
  parseStrBody (cs.length + 1) cs

def spanDigits : List Char → List Char × List Char
  | [] => ([], [])
  | c :: cs =>
    if '0' ≤ c ∧ c ≤ '9' then
      let (d, r) := spanDigits cs
      (c :: d, r)
    else ([], c :: cs)

def digitsVal (ds : List Char) : Nat := ds.foldl (fun a c => a * 10 + (c.toNat - 48)) 0

/- The integer part of a JSON number: 0, or a nonzero digit followed by
digits (json.loads rejects leading zeros). -/
def leadingZeroOk (ds : List Char) : Bool :=
  match ds with
  | '0' :: rest => rest.isEmpty
  | _ => !ds.isEmpty

/- After the e/E marker: an optional sign then one or more digits. -/
def parseExpDigits (s : List Char) : Option (List Char × List Char) :=
  match s with
  | '+' :: r =>
    match spanDigits r with
    | ([], _) => none
    | (ds, rest) => some ('+' :: ds, rest)
  | '-' :: r =>
    match spanDigits r with
    | ([], _) => none
    | (ds, rest) => some ('-' :: ds, rest)
  | r =>
    match spanDigits r with
    | ([], _) => none
    | (ds, rest) => some (ds, rest)

/- The JSON number grammar with any leading minus already consumed:
integer part without leading zeros, optional fraction, optional exponent.
Returns whether the literal is a float (fraction or exponent present, the
rule json.loads uses to pick int versus float), its characters, and the
rest of the input. -/
def parseNumberBody (s : List Char) : Option (Bool × List Char × List Char) :=
  match spanDigits s with
  | ([], _) => none
  | (ds, rest1) =>
    if !leadingZeroOk ds then none
    else
      match rest1 with
      | '.' :: r2 =>
        match spanDigits r2 with
        | ([], _) => none
        | (fs, rest2) =>
          match rest2 with
          | 'e' :: r3 =>
            match parseExpDigits r3 with
            | none => none
            | some (es, rest3) => some (true, ds ++ '.' :: fs ++ 'e' :: es, rest3)
          | 'E' :: r3 =>
            match parseExpDigits r3 with
            | none => none
            | some (es, rest3) => some (true, ds ++ '.' :: fs ++ 'E' :: es, rest3)
          | _ => some (true, ds ++ '.' :: fs, rest2)
      | 'e' :: r3 =>
        match parseExpDigits r3 with
        | none => none
        | some (es, rest3) => some (true, ds ++ 'e' :: es, rest3)
      | 'E' :: r3 =>
        match parseExpDigits r3 with
        | none => none
        | some (es, rest3) => some (true, ds ++ 'E' :: es, rest3)
      | _ => some (false, ds, rest1)

mutual

def parseVal : Nat → List Char → Option (Json × List Char)
  | 0, _ => none
  | fuel + 1, input =>
    match skipWsCh input with
    | [] => none
    | c :: cs =>
      if c = '{' then
        match skipWsCh cs with
        | '}' :: rest => some (.obj [], rest)
        | rest =>
          match parseObjRest fuel rest with
          | some (fs, r) => some (.obj fs, r)
          | none => none
      else if c = '[' then
        match skipWsCh cs with
        | ']' :: rest => some (.arr [], rest)
        | rest =>
          match parseArrRest fuel rest with
          | some (xs, r) => some (.arr xs, r)
          | none => none
      else if c = '"' then
        match parseStr cs with
        | some (out, rest) => some (.str ⟨out⟩, rest)
        | none => none
      else if c = 't' then
        match dropPrefixCh ['r', 'u', 'e'] cs with
        | some rest => some (.bool true, rest)
        | none => none
      else if c = 'f' then
        match dropPrefixCh ['a', 'l', 's', 'e'] cs with
        | some rest => some (.bool false, rest)
        | none => none
      else if c = 'n' then
        match dropPrefixCh ['u', 'l', 'l'] cs with
        | some rest => some (.null, rest)
        | none => none
      else if c = 'N' then
        match dropPrefixCh ['a', 'N'] cs with
        | some rest => some (.fnum "NaN", rest)
        | none => none
      else if c = 'I' then
        match dropPrefixCh ['n', 'f', 'i', 'n', 'i', 't', 'y'] cs with
        | some rest => some (.fnum "Infinity", rest)
        | none => none
      else if c = '-' then
        match cs with
        | 'I' :: cs2 =>
          match dropPrefixCh ['n', 'f', 'i', 'n', 'i', 't', 'y'] cs2 with
          | some rest => some (.fnum "-Infinity", rest)
          | none => none
        | _ =>
          match parseNumberBody cs with
          | some (true, lit, rest) => some (.fnum ⟨'-' :: lit⟩, rest)
          | some (false, lit, rest) => some (.num (-(Int.ofNat (digitsVal lit))), rest)
          | none => none
      else if '0' ≤ c ∧ c ≤ '9' then
        match parseNumberBody (c :: cs) with
        | some (true, lit, rest) => some (.fnum ⟨lit⟩, rest)
        | some (false, lit, rest) => some (.num (Int.ofNat (digitsVal lit)), rest)
        | none => none
      else none

def parseArrRest : Nat → List Char → Option (List Json × List Char)
  | 0, _ => none
  | fuel + 1, input =>
    match parseVal fuel input with
    | none => none
    | some (v, rest) =>
      match skipWsCh rest with
      | ',' :: rest2 =>
        match parseArrRest fuel rest2 with
        | some (xs, r) => some (v :: xs, r)
        | none => none
      | ']' :: rest2 => some ([v], rest2)
      | _ => none

def parseObjRest : Nat → List Char → Option (List (String × Json) × List Char)
  | 0, _ => none
  | fuel + 1, input =>
    match skipWsCh input with
    | '"' :: cs =>
      match parseStr cs with
      | none => none
      | some (key, rest) =>
        match skipWsCh rest with
        | ':' :: rest2 =>
          match parseVal fuel rest2 with
          | none => none
          | some (v, rest3) =>
            match skipWsCh rest3 with
            | ',' :: rest4 =>
              match parseObjRest fuel rest4 with
              | some (fs, r) => some ((⟨key⟩, v) :: fs, r)
              | none => none
            | '}' :: rest4 => some ([(⟨key⟩, v)], rest4)
            | _ => none
        | _ => none
    | _ => none

end

/- Model of json.loads: parse one value, allow trailing whitespace only. -/
def jsonDecode (s : String) : Option Json :=
  match parseVal (2 * s.data.length + 4) s.data with
  | some (j, rest) => if (skipWsCh rest).isEmpty then some j else none
  | none => none

/- ### Endpoint resolver (lm_studio.py lines 39-75) -/

/-
ParsedUrl models the fields of urllib.parse.urlparse that the resolver
reads: scheme, hostname (lowercased, brackets stripped, None when empty),
port, path.  The model covers URLs of the shape scheme://host[:port]/path
(no user-info, query or fragment, which the code never produces); an input
without "://" is treated as having no scheme and no netloc.
-/
structure ParsedUrl where
  scheme : String
  hostname : Option String
  port : Option Nat
  path : String

def digitsUnderscoreAux : List Char → Nat → Option Nat
  | [], acc => some acc
  | '_' :: c :: rest, acc =>
    if '0' ≤ c ∧ c ≤ '9' then digitsUnderscoreAux rest (acc * 10 + (c.toNat - 48)) else none
  | ['_'], _ => none
  | c :: rest, acc =>
    if '0' ≤ c ∧ c ≤ '9' then digitsUnderscoreAux rest (acc * 10 + (c.toNat - 48)) else none

/- Digits with single underscores between them, as int() accepts. -/
def digitsUnderscore (ds : List Char) : Option Nat :=
  match ds with
  | [] => none
  | '_' :: _ => none
  | c :: rest =>
    if '0' ≤ c ∧ c ≤ '9' then digitsUnderscoreAux rest (c.toNat - 48) else none

/- Python int(s, 10) on ASCII text: optional surrounding whitespace, an
optional sign, then digits with single underscores between digits; none
models the ValueError.  (Non-ASCII digit characters are outside the
modelled fragment.) -/
def pyIntLiteral10 (p : List Char) : Option Int :=
  match dropTrailing isPyWs (p.dropWhile isPyWs) with
  | '+' :: ds => (digitsUnderscore ds).map Int.ofNat
  | '-' :: ds => (digitsUnderscore ds).map (fun n => -(Int.ofNat n))
  | ds => (digitsUnderscore ds).map Int.ofNat

/- The value of urlparse(...).port when it does not raise: int(port, 10)
accepted and within 0..65535. -/
def parsePort (s : List Char) : Option Nat :=
  match pyIntLiteral10 s with
  | some n => if 0 ≤ n ∧ n ≤ 65535 then some n.toNat else none
  | none => none

/- Models urllib.parse._hostinfo on a netloc without user-info. -/
def parseNetloc (netloc : List Char) : Option String × Option Nat :=
  match netloc with
  | '[' :: rest =>
    match splitFirstCh [']'] rest with
    | some (host, after) =>
      let port :=
        match after with
        | ':' :: p => parsePort p
        | _ => none
      ((if host.isEmpty then none else some (pyLower ⟨host⟩)), port)
    | none => ((if rest.isEmpty then none else some (pyLower ⟨rest⟩)), none)
  | _ =>
    match splitFirstCh [':'] netloc with
    | some (host, p) => ((if host.isEmpty then none else some (pyLower ⟨host⟩)), parsePort p)
    | none => ((if netloc.isEmpty then none else some (pyLower ⟨netloc⟩)), none)

def urlparseModel (url : String) : ParsedUrl :=
  match splitFirstCh "://".data url.data with
  | none => { scheme := "", hostname := none, port := none, path := url }
  | some (schemeCh, rest) =>
    let np : List Char × List Char :=
      match splitFirstCh ['/'] rest with
      | some (n, p) => (n, '/' :: p)
      | none => (rest, [])
    let hp := parseNetloc np.1
    { scheme := pyLower ⟨schemeCh⟩, hostname := hp.1, port := hp.2, path := ⟨np.2⟩ }

/-
LMStudioClient._candidate_api_roots (lm_studio.py lines 39-75), applied to
the stored base URL (already rstripped of "/" by __init__).
-/
def candidate_api_roots (base_url : String) : List String :=
  let parsed := urlparseModel base_url
  let scheme := if parsed.scheme = "" then "http" else parsed.scheme
  let hostname := parsed.hostname.getD "127.0.0.1"
  let port := parsed.port
  let path := pyRstripSlash parsed.path
  let host_candidates :=
    if pyStripBrackets hostname = "localhost" ∨ pyStripBrackets hostname = "127.0.0.1" ∨
        pyStripBrackets hostname = "::1" then
      [hostname, "localhost", "127.0.0.1", "[::1]"]
    else [hostname]
  let strip1 := if pyEndsWith path "/v1" then strDropRight path 3 else path
  let base :=
    if strip1 = path then (if pyEndsWith path "/api/v0" then strDropRight path 7 else path)
    else strip1
  let path_candidates := [path, base ++ "/v1", base ++ "/api/v0", base]
  let build := fun (host api_path : String) =>
    let netloc :=
      match port with
      | none => host
      | some pt =>
        if !strContainsColon (pyStripBrackets host) then host ++ ":" ++ Nat.repr pt
        else if pyStartsWith host "[" && pyEndsWith host "]" then host ++ ":" ++ Nat.repr pt
        else host
    pyRstripSlash (scheme ++ "://" ++ netloc ++ api_path)
  dedupKeepFirst
    (host_candidates.foldr
      (fun h acc => (path_candidates.map (fun p => build h (pyRstripSlash p))) ++ acc) [])

def models_url_for (base : String) : String := pyRstripSlash base ++ "/models"

def chat_completions_url_for (base : String) : String := pyRstripSlash base ++ "/chat/completions"

/- ### Gateway client state and HTTP-layer environment -/

/-
ClientState holds the LMStudioClient fields the claims speak about
(__init__, lm_studio.py lines 14-29).  The api key only influences the
Authorization header content, which the environment abstracts, so it is not
a field; models_ttl is _models_ttl_s, last_refresh is
_last_models_refresh_monotonic.
-/
structure ClientState where
  base_url : String
  models_ttl : Int
  models : List String
  connected : Bool
  last_error : Option String
  last_refresh : Option Int

def initClient (base_url : String) (ttl : Int) : ClientState :=
  { base_url := pyRstripSlash base_url, models_ttl := ttl, models := [],
    connected := false, last_error := none, last_refresh := none }

/- The exception classes the client distinguishes in its handlers:
httpx.HTTPStatusError, httpx.ConnectError, and anything else (timeouts,
json decoding failures, shape errors, ...) whose str() is the message. -/
inductive PyExc where
  | connectErr : PyExc
  | httpStatus : Nat → String → PyExc
  | other : String → PyExc
deriving DecidableEq

/- A response body: response.json() either returns a value or raises. -/
inductive Body where
  | malformed : String → Body
  | parsed : Json → Body

/-
One observed HTTP interaction for a non-streaming request: the connection
is refused, some other exception is raised (timeout included), or a
response arrives with status code, reason phrase and body.
-/
inductive HttpAttempt where
  | connectError : HttpAttempt
  | otherException : String → HttpAttempt
  | response : Nat → String → Body → HttpAttempt

/- httpx.Response.raise_for_status raises unless the status is 2xx. -/
def is2xx (s : Nat) : Bool := decide (200 ≤ s ∧ s < 300)

/- The error classification shared by lines 140-150 and 195-199: connect
errors, HTTP status errors ("<code> <reason>") and str() of anything else;
"Unknown error" when no candidate was even attempted. -/
def describeExc : Option PyExc → String
  | some .connectErr => "Can't connect to LM Studio. Is it running?"
  | some (.httpStatus code reason) => Nat.repr code ++ " " ++ reason
  | some (.other m) => m
  | none => "Unknown error"

def models_stale (now : Int) (st : ClientState) : Bool :=
  match st.last_refresh with
  | none => true
  | some t => decide (now - t > st.models_ttl)

/- ### refresh_models (lm_studio.py lines 94-152) -/

/- Model-id extraction from a models response (lines 112-121): tolerate a
bare list or an object with a data list; per item take id or name or model
(Python `or`), keep it when it is a non-empty string. -/
def extract_model_ids (data : Json) : List String :=
  let items : List Json :=
    match data with
    | .obj fields =>
      match dictGetD fields "data" (.arr []) with
      | .arr l => l
      | _ => []
    | .arr l => l
    | _ => []
  items.filterMap fun item =>
    match item with
    | .obj f =>
      match pyOr (dictGetD f "id" .null) (pyOr (dictGetD f "name" .null) (dictGetD f "model" .null)) with
      | .str s => if s = "" then none else some s
      | _ => none
    | _ => none

/-
One candidate attempt of the models loop (lines 104-127): GET the models
URL; on 401/403 retry the same URL once with the Authorization header;
raise_for_status; decode the body.  The environment maps (url, authed) to
the observed interaction.
-/
def attemptModels (env : String → Bool → HttpAttempt) (base : String) :
    Except PyExc (List String) :=
  match env (models_url_for base) false with
  | .connectError => .error .connectErr
  | .otherException m => .error (.other m)
  | .response s r b =>
    match (if s = 401 ∨ s = 403 then env (models_url_for base) true else .response s r b) with
    | .connectError => .error .connectErr
    | .otherException m => .error (.other m)
    | .response s2 r2 b2 =>
      if is2xx s2 then
        match b2 with
        | .malformed m => .error (.other m)
        | .parsed j => .ok (extract_model_ids j)
      else .error (.httpStatus s2 r2)

/-
The candidate loop of refresh_models: HTTPStatusError and ConnectError
continue with the next candidate, any other exception breaks; the second
component counts the candidates attempted (network activity).
-/
def refreshLoop (env : String → Bool → HttpAttempt) :
    List String → Option PyExc → Except (Option PyExc) (String × List String) × Nat
  | [], last => (.error last, 0)
  | c :: rest, _last =>
    match attemptModels env c with
    | .ok ms => (.ok (c, ms), 1)
    | .error .connectErr =>
      let rn := refreshLoop env rest (some .connectErr)
      (rn.1, rn.2 + 1)
    | .error (.httpStatus s r) =>
      let rn := refreshLoop env rest (some (.httpStatus s r))
      (rn.1, rn.2 + 1)
    | .error (.other m) => (.error (some (.other m)), 1)

/-
LMStudioClient.refresh_models (lines 94-152).  The asyncio refresh lock
serialises callers and re-checks freshness after acquiring; in this
sequential model the two freshness checks collapse into one.  The Nat is
the number of candidates that caused network requests.  Note that the code
stamps _last_models_refresh_monotonic on the failure path too (line 151).
-/
def refreshOkState (st : ClientState) (now : Int) (c : String) (ms : List String) :
    ClientState :=
  { st with models := ms, connected := true,
            last_error := if ms = [] then some "No models returned." else none,
            last_refresh := some now, base_url := pyRstripSlash c }

def refreshFailState (st : ClientState) (now : Int) (last : Option PyExc) : ClientState :=
  { st with models := [], connected := false,
            last_error := some (describeExc last), last_refresh := some now }

def refresh_models (env : String → Bool → HttpAttempt) (force : Bool) (now : Int)
    (st : ClientState) : List String × ClientState × Nat :=
  if !force && !(models_stale now st) then (st.models, st, 0)
  else
    let rn := refreshLoop env (candidate_api_roots st.base_url) none
    match rn.1 with
    | .ok (c, ms) => (ms, refreshOkState st now c ms, rn.2)
    | .error last => ([], refreshFailState st now last, rn.2)

/- ### query_chat (lm_studio.py lines 154-199) -/

/-
data["choices"][0]["message"]["content"] (line 184): any missing key,
empty list, or non-subscriptable step raises (KeyError / IndexError /
TypeError), which the loop's generic handler turns into a break; the
returned value is whatever JSON value sits under "content".
-/
def extract_chat_content (data : Json) : Option Json :=
  match data with
  | .obj f =>
    match objGet f "choices" with
    | some (.arr (c0 :: _)) =>
      match c0 with
      | .obj f2 =>
        match objGet f2 "message" with
        | some (.obj f3) => objGet f3 "content"
        | _ => none
      | _ => none
    | _ => none
  | _ => none

/-
One candidate attempt of the chat loop (lines 175-184); the exception
message for a shape failure abstracts the Python KeyError/IndexError text.
The source pins self._base_url at line 183, after response.json() succeeds
but before the choices/message/content extraction of line 184; the Bool of
the error case records whether that assignment already ran when the
exception was raised.
-/
def attemptChat (env : String → Bool → HttpAttempt) (base : String) :
    Except (PyExc × Bool) Json :=
  match env (chat_completions_url_for base) false with
  | .connectError => .error (.connectErr, false)
  | .otherException m => .error (.other m, false)
  | .response s r b =>
    match (if s = 401 ∨ s = 403 then env (chat_completions_url_for base) true else .response s r b) with
    | .connectError => .error (.connectErr, false)
    | .otherException m => .error (.other m, false)
    | .response s2 r2 b2 =>
      if is2xx s2 then
        match b2 with
        | .malformed m => .error (.other m, false)
        | .parsed j =>
          match extract_chat_content j with
          | some v => .ok v
          | none => .error (.other "invalid chat completion shape", true)
      else .error (.httpStatus s2 r2, false)

/- The candidate loop of query_chat; the error case carries the candidate
whose attempt had already pinned the sticky base URL when it broke, if
any (only the break-class extraction failure can have pinned). -/
def chatLoop (env : String → Bool → HttpAttempt) :
    List String → Option PyExc → Except (Option PyExc × Option String) (String × Json)
  | [], last => .error (last, none)
  | c :: rest, _last =>
    match attemptChat env c with
    | .ok v => .ok (c, v)
    | .error (.connectErr, _) => chatLoop env rest (some .connectErr)
    | .error (.httpStatus s r, _) => chatLoop env rest (some (.httpStatus s r))
    | .error (.other m, pinned) =>
      .error (some (.other m), if pinned then some c else none)

/-
LMStudioClient.query_chat (lines 154-199).  The prompt, context and model
parameters only shape the request payload; the environment closes over
them.  On success the first choice's message content is returned (a Json
value; the annotation says str but Python does not check) and the sticky
base URL is pinned; on exhaustion a classified "Error: ..." string is
returned and the state is untouched.
-/
def query_chat (env : String → Bool → HttpAttempt) (st : ClientState) : Json × ClientState :=
  match chatLoop env (candidate_api_roots st.base_url) none with
  | .ok (c, v) => (v, { st with base_url := pyRstripSlash c })
  | .error (last, some c) =>
    (.str ("Error: " ++ describeExc last), { st with base_url := pyRstripSlash c })
  | .error (last, none) => (.str ("Error: " ++ describeExc last), st)

/- ### query_chat_stream and the stream decoder (lm_studio.py lines 201-266) -/

/-
One observed streaming interaction per candidate: connection refused, some
other exception while opening, or a response with status, reason, the
sequence of body lines, and optionally an exception the line iterator
raises after those lines (a mid-stream transport failure such as a read
timeout, which the generic handler turns into a break).  The Authorization
header is sent proactively on the first try (line 229), so there is no
auth-retry dimension.
-/
inductive StreamAttempt where
  | connectError : StreamAttempt
  | otherException : String → StreamAttempt
  | response : Nat → String → List String → Option String → StreamAttempt

/-
data.get("choices", [{}])[0].get("delta", {}).get("content", "") inside
try/except json.JSONDecodeError (lines 243-245): only a JSON decode error
is caught there, so a decoded payload of unexpected shape raises out of the
line loop (AttributeError / IndexError / TypeError, message abstracted) and
is handled by the candidate loop's generic break.  A present, truthy
content is yielded; a falsy one is skipped.
-/
def extract_delta (data : Json) : Except String (Option Json) :=
  match data with
  | .obj f =>
    match dictGetD f "choices" (.arr [.obj []]) with
    | .arr (c0 :: _) =>
      match c0 with
      | .obj f2 =>
        match dictGetD f2 "delta" (.obj []) with
        | .obj f3 =>
          let content := dictGetD f3 "content" (.str "")
          if jsonTruthy content then .ok (some content) else .ok none
        | _ => .error "delta value has no attribute get"
      | _ => .error "choice entry has no attribute get"
    | .arr [] => .error "list index out of range"
    | _ => .error "choices value is not list-indexable"
  | _ => .error "payload has no attribute get"

/- How the line loop of query_chat_stream ended. -/
inductive EndKind where
  | done : EndKind
  | ranOut : EndKind
  | aborted : String → EndKind
deriving DecidableEq

/-
The stream decoding loop (lines 236-249): ignore lines without the
"data: " prefix; strip the prefix; stop at the [DONE] sentinel; drop
payloads that fail JSON decoding; emit truthy delta contents; abort on a
shape exception.
-/
def decodeLoop : List String → List Json × EndKind
  | [] => ([], .ranOut)
  | line :: rest =>
    if pyStartsWith line "data: " then
      let dataStr := strDrop line 6
      if pyStrip dataStr = "[DONE]" then ([], .done)
      else
        match jsonDecode dataStr with
        | none => decodeLoop rest
        | some j =>
          match extract_delta j with
          | .error m => ([], .aborted m)
          | .ok none => decodeLoop rest
          | .ok (some v) =>
            let oe := decodeLoop rest
            (v :: oe.1, oe.2)
    else decodeLoop rest

/-
Result of the candidate loop of query_chat_stream: either some candidate
answered with a non-401/403 2xx response and its decoded fragments were
served (err carries the exception when the line loop aborted or the
iterator failed, in which case a final error fragment follows), or every
candidate was exhausted / the loop broke before any response streamed.
-/
inductive StreamOutcome where
  | served : String → List Json → Option PyExc → StreamOutcome
  | exhausted : Option PyExc → StreamOutcome

def streamLoop (envS : String → StreamAttempt) :
    List String → Option PyExc → StreamOutcome
  | [], last => .exhausted last
  | c :: rest, last =>
    match envS (chat_completions_url_for c) with
    | .connectError => streamLoop envS rest (some .connectErr)
    | .otherException m => .exhausted (some (.other m))
    | .response s r lines te =>
      if s = 401 ∨ s = 403 then streamLoop envS rest last
      else if is2xx s then
        match (decodeLoop lines).2 with
        | .done => .served c (decodeLoop lines).1 none
        | .ranOut =>
          match te with
          | none => .served c (decodeLoop lines).1 none
          | some m => .served c (decodeLoop lines).1 (some (.other m))
        | .aborted m => .served c (decodeLoop lines).1 (some (.other m))
      else streamLoop envS rest (some (.httpStatus s r))

/-
LMStudioClient.query_chat_stream (lines 201-266) as the finite sequence of
values the async generator yields, plus the state after it finishes.  The
sticky base URL is pinned as soon as a 2xx response opens (line 234), even
when the stream later aborts; on exhaustion or break a single classified
error fragment is yielded (lines 261-266).
-/
def query_chat_stream (envS : String → StreamAttempt) (st : ClientState) :
    List Json × ClientState :=
  match streamLoop envS (candidate_api_roots st.base_url) none with
  | .served c outs none => (outs, { st with base_url := pyRstripSlash c })
  | .served c outs (some e) =>
    (outs ++ [.str ("Error: " ++ describeExc (some e))], { st with base_url := pyRstripSlash c })
  | .exhausted last => ([.str ("Error: " ++ describeExc last)], st)

/-
A snapshot is the mapping path -> mtime that _take_snapshot captures;
_take_snapshot itself is filesystem I/O, so check_for_changes is modelled
as a function of the stored snapshot and the freshly taken one.  Python
iterates hash sets in unspecified order; the model fixes the iteration
order of the source dictionaries, and the claims are stated set-wise.
-/
abbrev Snapshot := List (String × Int)

def snapKeys (s : Snapshot) : List String := s.map Prod.fst

def snapLookup (s : Snapshot) (p : String) : Option Int :=
  match s with
  | [] => none
  | (k, v) :: rest => if k = p then some v else snapLookup rest p

structure ChangeSet where
  changed : Bool
  added : List String
  modified : List String
  deleted : List String

/- FileWatcher.check_for_changes (lines 56-74); the second component is the
snapshot stored afterwards (unconditionally the new one, line 73). -/
def check_for_changes (old new : Snapshot) : ChangeSet × Snapshot :=
  let old_paths := snapKeys old
  let new_paths := snapKeys new
  let added := new_paths.filter fun p => decide (p ∉ old_paths)
  let deleted := old_paths.filter fun p => decide (p ∉ new_paths)
  let modified := old_paths.filter fun p =>
    decide (p ∈ new_paths) && decide (snapLookup old p ≠ snapLookup new p)
  let changed := !added.isEmpty || !deleted.isEmpty || !modified.isEmpty
  ({ changed := changed, added := added, modified := modified, deleted := deleted }, new)

/- ### ModelPanel.run_shadow_review (app.py lines 271-333) -/

/- Severity classification of the chat response (lines 319-330). -/
def classify_response (response : String) : String :=
  if pyStartsWith response "Error:" then "error"
  else if hasSubstrCh "[CRITICAL]".data (pyUpper response).data then "critical"
  else if hasSubstrCh "[WARNING]".data (pyUpper response).data then "warning"
  else "safe"

/- Case-insensitive containment as the claims phrase it: the tag occurs in
the response ignoring case. -/
def containsCI (needle hay : String) : Bool :=
  hasSubstrCh (pyUpper needle).data (pyUpper hay).data

/- The review subject (lines 283-288): prefer the unstaged diff, fall back
to the staged diff, give up when both are empty/sentinel/error. -/
def review_subject (unstaged staged : String) : Option String :=
  if unstaged = "(no unstaged changes)" ∨ unstaged = "" ∨ pyStartsWith unstaged "Error:" = true then
    if staged = "(nothing staged)" ∨ staged = "" ∨ pyStartsWith staged "Error:" = true then none
    else some staged
  else some unstaged

/- The ModelPanel fields run_shadow_review touches (shadow_enabled,
_reviewing, _last_diff_hash). -/
structure PanelState where
  shadow_enabled : Bool
  reviewing : Bool
  last_diff_hash : Int

/- The collaborators of one run_shadow_review call: gateway connection
flag, selector state, the two diff providers, the gateway's chat response,
and Python's built-in hash on str. -/
structure ShadowEnv where
  connected : Bool
  selected_model : Option String
  unstaged : String
  staged : String
  chat_response : String
  hashFn : String → Int

/- `not selector.selected_model`: None and the empty string are falsy. -/
def modelMissing : Option String → Bool
  | none => true
  | some s => decide (s = "")

/-
ModelPanel.run_shadow_review (lines 271-333).  Returns the panel state
afterwards, the number of query_chat invocations (0 or 1), and the
classification with the raw response when a review ran (the posted
ShadowReviewComplete message).  _reviewing is set before the await and
cleared after it; sequentially the call leaves it false.
-/
def run_shadow_review (e : ShadowEnv) (st : PanelState) :
    PanelState × Nat × Option (String × String) :=
  if !st.shadow_enabled || st.reviewing then (st, 0, none)
  else if !e.connected || modelMissing e.selected_model then (st, 0, none)
  else
    match review_subject e.unstaged e.staged with
    | none => (st, 0, none)
    | some d =>
      if e.hashFn d = st.last_diff_hash then (st, 0, none)
      else
        ({ st with last_diff_hash := e.hashFn d, reviewing := false }, 1,
         some (classify_response e.chat_response, e.chat_response))

/- ### Helper notions and lemmas for the gateway theorems -/

theorem chatLoop_error_pinned (env : String → Bool → HttpAttempt) :
    ∀ (cs : List String) (last0 last : Option PyExc) (c : String),
      chatLoop env cs last0 = .error (last, some c) →
      ∃ m, attemptChat env c = .error (.other m, true) := by
  intro cs
  induction cs with
  | nil =>
    intro last0 last c h
    simp [chatLoop] at h
  | cons x xs ih =>
    intro last0 last c h
    simp only [chatLoop] at h
    cases ha : attemptChat env x with
    | ok v => rw [ha] at h; simp at h
    | error e =>
      rw [ha] at h
      obtain ⟨exc, pin⟩ := e
      cases exc with
      | connectErr => exact ih _ _ _ h
      | httpStatus s r => exact ih _ _ _ h
      | other m =>
        cases pin with
        | true =>
          simp only [if_pos rfl] at h
          simp at h
          obtain ⟨-, h2⟩ := h
          subst h2
          exact ⟨m, ha⟩
        | false => simp at h

theorem attemptChat_pinned {env : String → Bool → HttpAttempt} {c : String} {e : PyExc}
    (h : attemptChat env c = .error (e, true)) :
    ∃ auth s r j, env (chat_completions_url_for c) auth = .response s r (.parsed j) ∧
      is2xx s = true ∧ extract_chat_content j = none := by
  unfold attemptChat at h
  cases h1 : env (chat_completions_url_for c) false with
  | connectError => rw [h1] at h; simp at h
  | otherException m => rw [h1] at h; simp at h
  | response s r b =>
    rw [h1] at h
    dsimp only at h
    by_cases hs : s = 401 ∨ s = 403
    · rw [if_pos hs] at h
      cases h2 : env (chat_completions_url_for c) true with
      | connectError => rw [h2] at h; simp at h
      | otherException m => rw [h2] at h; simp at h
      | response s2 r2 b2 =>
        rw [h2] at h
        dsimp only at h
        by_cases h2x : is2xx s2 = true
        · rw [if_pos h2x] at h
          cases b2 with
          | malformed m => simp at h
          | parsed j =>
            dsimp only at h
            cases hec : extract_chat_content j with
            | none => exact ⟨true, s2, r2, j, h2, h2x, hec⟩
            | some w => rw [hec] at h; simp at h
        · rw [if_neg h2x] at h; simp at h
    · rw [if_neg hs] at h
      dsimp only at h
      by_cases h2x : is2xx s = true
      · rw [if_pos h2x] at h
        cases b with
        | malformed m => simp at h
        | parsed j =>
          dsimp only at h
          cases hec : extract_chat_content j with
          | none => exact ⟨false, s, r, j, h1, h2x, hec⟩
          | some w => rw [hec] at h; simp at h
      · rw [if_neg h2x] at h; simp at h

/- Every request fails at the connection level. -/
def envConnFail : String → Bool → HttpAttempt := fun _ _ => .connectError

def envSConnFail : String → StreamAttempt := fun _ => .connectError

/- Every request gets a 2xx models response whose data list is empty. -/
def envEmptyModels : String → Bool → HttpAttempt :=
  fun _ _ => .response 200 "OK" (.parsed (.obj [("data", .arr [])]))

/- A client as WorkspacePanel constructs it with the default base URL and
the default 15 second TTL. -/
def st0 : ClientState := initClient "http://127.0.0.1:1234/v1" 15

/-- C10: query_chat and query_chat_stream leave models, connected,
last_error, the refresh timestamp and the TTL untouched in every
environment; when their candidate loop ends without any successful
response the whole state (sticky base URL included) is unchanged; and the
only mutation either may make is the sticky base URL, pinned exactly upon
a successful response — for the stream a 2xx opening, and for chat a 2xx
response whose body decodes (line 183 pins before the line-184 content
extraction, so a subsequent shape failure leaves the URL pinned while the
call returns an error string). -/
theorem c10_chat_frame (env : String → Bool → HttpAttempt) (envS : String → StreamAttempt)
    (st : ClientState) :
    ((query_chat env st).2.models = st.models ∧
     (query_chat env st).2.connected = st.connected ∧
     (query_chat env st).2.last_error = st.last_error ∧
     (query_chat env st).2.last_refresh = st.last_refresh ∧
     (query_chat env st).2.models_ttl = st.models_ttl) ∧
    ((query_chat_stream envS st).2.models = st.models ∧
     (query_chat_stream envS st).2.connected = st.connected ∧
     (query_chat_stream envS st).2.last_error = st.last_error ∧
     (query_chat_stream envS st).2.last_refresh = st.last_refresh ∧
     (query_chat_stream envS st).2.models_ttl = st.models_ttl) ∧
    (∀ last, chatLoop env (candidate_api_roots st.base_url) none = .error (last, none) →
      (query_chat env st).2 = st) ∧
    (∀ last c, chatLoop env (candidate_api_roots st.base_url) none = .error (last, some c) →
      ((query_chat env st).2 = { st with base_url := pyRstripSlash c } ∧
       ∃ auth s r j, env (chat_completions_url_for c) auth = .response s r (.parsed j) ∧
         is2xx s = true ∧ extract_chat_content j = none)) ∧
    (∀ last, streamLoop envS (candidate_api_roots st.base_url) none = .exhausted last →
      (query_chat_stream envS st).2 = st) := by
  refine ⟨?_, ?_, ?_, ?_, ?_⟩
  · cases hcl : chatLoop env (candidate_api_roots st.base_url) none with
    | ok p => obtain ⟨c, v⟩ := p; simp [query_chat, hcl]
    | error q =>
      obtain ⟨last, pin⟩ := q
      cases pin with
      | none => simp [query_chat, hcl]
      | some c => simp [query_chat, hcl]
  · cases hsl : streamLoop envS (candidate_api_roots st.base_url) none with
    | served c outs err => cases err <;> simp [query_chat_stream, hsl]
    | exhausted last => simp [query_chat_stream, hsl]
  · intro last h
    simp [query_chat, h]
  · intro last c h
    refine ⟨by simp [query_chat, h], ?_⟩
    obtain ⟨m, ham⟩ := chatLoop_error_pinned env _ _ _ _ h
    exact attemptChat_pinned ham
  · intro last h
    simp [query_chat_stream, h]

/-- C10 witness: a fully failing chat (no candidate ever answers) and a
fully failing stream leave the freshly constructed client state exactly
as it was. -/
theorem c10_chat_frame_witness :
    (query_chat envConnFail st0).2 = st0 ∧ (query_chat_stream envSConnFail st0).2 = st0 := by
  have h := c10_chat_frame envConnFail envSConnFail st0
  exact ⟨h.2.2.1 (some .connectErr) (by rfl), h.2.2.2.2 (some .connectErr) (by rfl)⟩

/-- C2: for base URL http://localhost:1234/v1 the resolver's candidate list
contains http://localhost:1234/v1, http://127.0.0.1:1234/v1 and
http://127.0.0.1:1234/api/v0, holds no duplicates, and every candidate
whose host is localhost comes before every candidate whose host is
127.0.0.1. -/
theorem c2_resolver_localhost_candidates :
    ("http://localhost:1234/v1" ∈ candidate_api_roots "http://localhost:1234/v1" ∧
     "http://127.0.0.1:1234/v1" ∈ candidate_api_roots "http://localhost:1234/v1" ∧
     "http://127.0.0.1:1234/api/v0" ∈ candidate_api_roots "http://localhost:1234/v1") ∧
    (candidate_api_roots "http://localhost:1234/v1").Nodup ∧
    (∀ i j : Fin (candidate_api_roots "http://localhost:1234/v1").length,
      (urlparseModel ((candidate_api_roots "http://localhost:1234/v1").get i)).hostname =
        some "localhost" →
      (urlparseModel ((candidate_api_roots "http://localhost:1234/v1").get j)).hostname =
        some "127.0.0.1" →
      (i : Nat) < j) := by decide

/-- C3 counterexample: for the bracketed IPv6 base URL
http://[::1]:1234/v1 the resolver's very first candidate is
http://::1/v1 — built from the urlparse hostname ::1 — which drops the
configured port 1234 entirely and renders the IPv6 address without
brackets, contradicting the claim that every candidate derived from that
host reattaches the port in valid bracket notation. -/
theorem c3_resolver_ipv6_counterexample :
    (candidate_api_roots "http://[::1]:1234/v1").head? = some "http://::1/v1" ∧
    hasSubstrCh "1234".data "http://::1/v1".data = false ∧
    hasSubstrCh "[".data "http://::1/v1".data = false := by decide

/-- C3 amended: the resolver is a pure function (determinism and freedom
from I/O are inherent in the embedding); for http://[::1]:1234/v1 the
candidates built from the literal bracketed spelling keep the port in
bracket notation, but the three candidates built from the bracket-stripped
urlparse hostname ::1 omit the port and render the address unbracketed, as
the full candidate list shows. -/
theorem c3_resolver_ipv6_amended :
    candidate_api_roots "http://[::1]:1234/v1" =
      ["http://::1/v1", "http://::1/api/v0", "http://::1",
       "http://localhost:1234/v1", "http://localhost:1234/api/v0", "http://localhost:1234",
       "http://127.0.0.1:1234/v1", "http://127.0.0.1:1234/api/v0", "http://127.0.0.1:1234",
       "http://[::1]:1234/v1", "http://[::1]:1234/api/v0", "http://[::1]:1234"] := by rfl

/-- C4 counterexample: starting from a fresh client (no refresh recorded),
a non-forced refresh_models at time 100 that fails on every candidate
nevertheless advances the refresh timestamp to 100 (line 151 stamps the
failure path too), and a subsequent non-forced call at time 110 performs
zero network requests and returns the cleared cache — the opposite of the
claim's "timestamp not advanced, next call issues requests again". -/
theorem c4_refresh_timestamp_counterexample :
    st0.last_refresh = none ∧
    (refresh_models envConnFail false 100 st0).2.1.last_refresh = some 100 ∧
    (refresh_models envConnFail false 110 (refresh_models envConnFail false 100 st0).2.1).2.2
      = 0 ∧
    (refresh_models envConnFail false 110 (refresh_models envConnFail false 100 st0).2.1).1
      = [] := by
  exact ⟨rfl, by rfl, by rfl, by rfl⟩

/-- C4 amended: the refresh timestamp records refresh attempts, not only
successes — a run of refresh_models that fails on all candidates also sets
the timestamp to the current time, leaves the catalog cleared and the
client disconnected, and consequently any later non-forced refresh_models
call made while that timestamp is within the TTL returns the cleared cache
with zero network requests. -/
theorem c4_refresh_timestamp_amended (env : String → Bool → HttpAttempt) (now : Int)
    (st : ClientState) (last : Option PyExc)
    (h : (refreshLoop env (candidate_api_roots st.base_url) none).1 = .error last) :
    (refresh_models env true now st).2.1.last_refresh = some now ∧
    (refresh_models env true now st).2.1.models = [] ∧
    (refresh_models env true now st).2.1.connected = false ∧
    (∀ env2 now2, models_stale now2 (refresh_models env true now st).2.1 = false →
      refresh_models env2 false now2 (refresh_models env true now st).2.1 =
        ((refresh_models env true now st).2.1.models, (refresh_models env true now st).2.1, 0)) := by
  have h1 : refresh_models env true now st =
      ([], refreshFailState st now last,
       (refreshLoop env (candidate_api_roots st.base_url) none).2) := by
    simp [refresh_models, h]
  refine ⟨by rw [h1]; rfl, by rw [h1]; rfl, by rw [h1]; rfl, ?_⟩
  intro env2 now2 hstale
  rw [h1] at hstale ⊢
  simp [refresh_models, hstale]

/-- C4 amended witness: the concrete all-connection-refused run at time 100
stamps the timestamp, and at time 110 (within the 15 second TTL) the next
non-forced call is answered from the cleared cache with no requests. -/
theorem c4_refresh_timestamp_amended_witness :
    (refresh_models envConnFail true 100 st0).2.1.last_refresh = some 100 ∧
    refresh_models envConnFail false 110 (refresh_models envConnFail true 100 st0).2.1 =
      ((refresh_models envConnFail true 100 st0).2.1.models,
       (refresh_models envConnFail true 100 st0).2.1, 0) := by
  have h := c4_refresh_timestamp_amended envConnFail 100 st0 (some .connectErr) (by rfl)
  exact ⟨h.1, h.2.2.2 envConnFail 110 (by rfl)⟩

/-- C5 counterexample: when the models endpoint answers 200 with an empty
data list, refresh_models reports connected = true (line 123 sets the flag
before inspecting the list), not connected = false as the claim states. -/
theorem c5_empty_models_counterexample :
    (refresh_models envEmptyModels true 0 st0).2.1.connected = true ∧
    (refresh_models envEmptyModels true 0 st0).1 = [] := by
  exact ⟨by rfl, by rfl⟩

/-- C5 amended: a successful refresh that extracts an empty model list
leaves the client marked connected with last_error set to "No models
returned." and an empty catalog; and a subsequent chat call whose candidate
loop fails returns a classified "Error: "-prefixed string rather than
raising. -/
theorem c5_empty_models_amended (env : String → Bool → HttpAttempt) (now : Int)
    (st : ClientState) (c : String)
    (h : (refreshLoop env (candidate_api_roots st.base_url) none).1 = .ok (c, [])) :
    (refresh_models env true now st).2.1.connected = true ∧
    (refresh_models env true now st).2.1.last_error = some "No models returned." ∧
    (refresh_models env true now st).1 = [] ∧
    (∀ env2 st2 last pin,
      chatLoop env2 (candidate_api_roots st2.base_url) none = .error (last, pin) →
      (query_chat env2 st2).1 = Json.str ("Error: " ++ describeExc last)) := by
  have h1 : refresh_models env true now st =
      ([], refreshOkState st now c [],
       (refreshLoop env (candidate_api_roots st.base_url) none).2) := by
    simp [refresh_models, h]
  refine ⟨by rw [h1]; rfl, by rw [h1]; rfl, by rw [h1], ?_⟩
  intro env2 st2 last pin h2
  cases pin with
  | none => simp [query_chat, h2]
  | some c2 => simp [query_chat, h2]

/-- C5 amended witness: the concrete empty-data refresh reports the "No
models returned." error while staying connected, and a chat against a dead
server returns the connect-error string. -/
theorem c5_empty_models_amended_witness :
    (refresh_models envEmptyModels true 0 st0).2.1.last_error = some "No models returned." ∧
    (query_chat envConnFail st0).1 =
      Json.str "Error: Can't connect to LM Studio. Is it running?" := by
  have h := c5_empty_models_amended envEmptyModels 0 st0 "http://127.0.0.1:1234/v1" (by rfl)
  exact ⟨h.2.1, h.2.2.2 envConnFail st0 (some .connectErr) none (by rfl)⟩

/-- C7: for consecutive snapshots old and new (with duplicate-free paths,
as Python dict keys are), check_for_changes reports added = new paths minus
old paths, deleted = old paths minus new paths, modified = the paths in
both whose recorded mtimes differ (each once), changed = true exactly when
one of the three is non-empty, and stores the new snapshot unconditionally.
-/
theorem c7_check_for_changes (old new : Snapshot)
    (hold : (snapKeys old).Nodup) (hnew : (snapKeys new).Nodup) :
    (∀ p, p ∈ (check_for_changes old new).1.added ↔
      p ∈ snapKeys new ∧ p ∉ snapKeys old) ∧
    (∀ p, p ∈ (check_for_changes old new).1.deleted ↔
      p ∈ snapKeys old ∧ p ∉ snapKeys new) ∧
    (∀ p, p ∈ (check_for_changes old new).1.modified ↔
      p ∈ snapKeys old ∧ p ∈ snapKeys new ∧ snapLookup old p ≠ snapLookup new p) ∧
    ((check_for_changes old new).1.added.Nodup ∧
     (check_for_changes old new).1.deleted.Nodup ∧
     (check_for_changes old new).1.modified.Nodup) ∧
    ((check_for_changes old new).1.changed = true ↔
      ((check_for_changes old new).1.added ≠ [] ∨
       (check_for_changes old new).1.deleted ≠ [] ∨
       (check_for_changes old new).1.modified ≠ [])) ∧
    (check_for_changes old new).2 = new := by
  refine ⟨?_, ?_, ?_, ⟨?_, ?_, ?_⟩, ?_, rfl⟩
  · intro p
    simp [check_for_changes, List.mem_filter]
  · intro p
    simp [check_for_changes, List.mem_filter]
  · intro p
    simp [check_for_changes, List.mem_filter, and_assoc]
  · exact hnew.filter _
  · exact hold.filter _
  · exact hold.filter _
  · simp [check_for_changes, List.isEmpty_iff, or_assoc]

/-- C7 witness: from snapshot a↦1 to snapshot a↦1, b↦2 the path b is
reported added exactly because it is new, and the stored snapshot becomes
the new one. -/
theorem c7_check_for_changes_witness :
    ("b" ∈ (check_for_changes [("a", 1)] [("a", 1), ("b", 2)]).1.added ↔
      "b" ∈ snapKeys [("a", 1), ("b", 2)] ∧ "b" ∉ snapKeys [("a", 1)]) ∧
    (check_for_changes [("a", 1)] [("a", 1), ("b", 2)]).2 = [("a", 1), ("b", 2)] := by
  have h := c7_check_for_changes [("a", 1)] [("a", 1), ("b", 2)] (by decide) (by decide)
  exact ⟨h.1 "b", h.2.2.2.2.2⟩

/-- C8: under unchanged preconditions (shadow reviews enabled, no review in
progress, gateway connected, a model selected, the same review subject d
both times) with d not yet reviewed, two consecutive run_shadow_review
calls invoke the gateway chat operation exactly once: the first call
reviews d and records its hash, the second finds the hash equal and
returns without invoking chat. -/
theorem c8_shadow_review_dedup (e : ShadowEnv) (st : PanelState) (d : String)
    (hen : st.shadow_enabled = true) (hrev : st.reviewing = false)
    (hcon : e.connected = true) (hmod : modelMissing e.selected_model = false)
    (hsub : review_subject e.unstaged e.staged = some d)
    (hfresh : e.hashFn d ≠ st.last_diff_hash) :
    (run_shadow_review e st).2.1 = 1 ∧
    (run_shadow_review e (run_shadow_review e st).1).2.1 = 0 := by
  have h1 : run_shadow_review e st =
      ({ st with last_diff_hash := e.hashFn d, reviewing := false }, 1,
       some (classify_response e.chat_response, e.chat_response)) := by
    simp [run_shadow_review, hen, hrev, hcon, hmod, hsub, hfresh]
  refine ⟨by rw [h1], ?_⟩
  rw [h1]
  simp [run_shadow_review, hen, hcon, hmod, hsub]

/-- C8 witness: a concrete enabled panel with an unreviewed diff runs the
chat once on the first call and not at all on the second. -/
theorem c8_shadow_review_dedup_witness :
    (run_shadow_review
      { connected := true, selected_model := some "model-a", unstaged := "diff text",
        staged := "", chat_response := "LGTM", hashFn := fun s => (s.data.length : Int) }
      { shadow_enabled := true, reviewing := false, last_diff_hash := 0 }).2.1 = 1 ∧
    (run_shadow_review
      { connected := true, selected_model := some "model-a", unstaged := "diff text",
        staged := "", chat_response := "LGTM", hashFn := fun s => (s.data.length : Int) }
      (run_shadow_review
        { connected := true, selected_model := some "model-a", unstaged := "diff text",
          staged := "", chat_response := "LGTM", hashFn := fun s => (s.data.length : Int) }
        { shadow_enabled := true, reviewing := false, last_diff_hash := 0 }).1).2.1 = 0 := by
  exact c8_shadow_review_dedup _ _ "diff text" rfl rfl rfl rfl (by rfl) (by decide)

/-- C9: the shadow-review classification of a chat response r is error
exactly when r starts with "Error:", otherwise critical exactly when r
contains [CRITICAL] case-insensitively, otherwise warning exactly when r
contains [WARNING] case-insensitively, otherwise safe — with that
precedence: an error-prefixed response with a severity tag is error, a
response carrying both tags is critical, and "LGTM" is safe. -/
theorem c9_shadow_review_classification (r : String) :
    (classify_response r = "error" ↔ pyStartsWith r "Error:" = true) ∧
    (classify_response r = "critical" ↔
      (pyStartsWith r "Error:" = false ∧ containsCI "[CRITICAL]" r = true)) ∧
    (classify_response r = "warning" ↔
      (pyStartsWith r "Error:" = false ∧ containsCI "[CRITICAL]" r = false ∧
       containsCI "[WARNING]" r = true)) ∧
    (classify_response r = "safe" ↔
      (pyStartsWith r "Error:" = false ∧ containsCI "[CRITICAL]" r = false ∧
       containsCI "[WARNING]" r = false)) ∧
    classify_response "LGTM" = "safe" ∧
    classify_response "Error: [CRITICAL] credential committed" = "error" ∧
    classify_response "[WARNING] debug print left; [CRITICAL] key leaked" = "critical" := by
  have hcrit : containsCI "[CRITICAL]" r = hasSubstrCh "[CRITICAL]".data (pyUpper r).data := rfl
  have hwarn : containsCI "[WARNING]" r = hasSubstrCh "[WARNING]".data (pyUpper r).data := rfl
  refine ⟨?_, ?_, ?_, ?_, by decide, by decide, by decide⟩ <;>
    simp only [classify_response, hcrit, hwarn] <;>
    by_cases h1 : pyStartsWith r "Error:" = true <;>
    by_cases h2 : hasSubstrCh "[CRITICAL]".data (pyUpper r).data = true <;>
    by_cases h3 : hasSubstrCh "[WARNING]".data (pyUpper r).data = true <;>
    simp [h1, h2, h3, Bool.not_eq_true] at *
